import Mathlib

/-!
A shallow embedding of the pxshot Rust client library (src/types.rs, src/error.rs,
src/client.rs) together with a model of the small slices of its external
dependencies that its behaviour depends on: serde_json decoding of response
bodies, the http crate's status-code reason phrases, and the http crate's
header-value validity check used by `HeaderValue::from_str`.

The HTTP exchange itself is abstracted as an `Outcome` value: either a
transport failure or a response consisting of a status code and a fully read
body (a byte sequence, modelled as `List Nat` with each element < 256).
-/

/-! ## JSON wire model (models serde_json)

serde_json is an external dependency; this is a faithful model of the
fragment the client exercises: objects, arrays, strings with the common
escapes, booleans, null, and integer numbers.  Simplifications, each noted
inline: fractional/exponent numbers, `\u` escapes and duplicate-key
detection are not modelled (no decoded type in this crate carries a float,
and the claims never hinge on those inputs). -/

inductive Json where
  | null
  | bool (b : Bool)
  | num (n : Int)
  | str (s : String)
  | arr (elements : List Json)
  | obj (fields : List (String × Json))

/-- JSON insignificant whitespace: space, tab, line feed, carriage return. -/
def isJsonWs (b : Nat) : Bool := b == 32 || b == 9 || b == 10 || b == 13

/-- ASCII digit test on a byte. -/
def isDigitByte (b : Nat) : Bool := 48 ≤ b && b ≤ 57

/-- Scan the remainder of a JSON string after the opening quote, handling the
simple escape sequences (`\u` escapes are not modelled; serde_json would
accept them). Bytes ≥ 128 are kept as-is (adequate for the ASCII inputs the
claims exercise). -/
def scanStringRest : List Nat → List Char → Except String (String × List Nat)
  | [], _ => .error "unterminated string"
  | 34 :: rest, acc => .ok (String.mk acc.reverse, rest)
  | 92 :: 34 :: rest, acc => scanStringRest rest ('"' :: acc)
  | 92 :: 92 :: rest, acc => scanStringRest rest ('\\' :: acc)
  | 92 :: 47 :: rest, acc => scanStringRest rest ('/' :: acc)
  | 92 :: 110 :: rest, acc => scanStringRest rest ('\n' :: acc)
  | 92 :: 116 :: rest, acc => scanStringRest rest ('\t' :: acc)
  | 92 :: 114 :: rest, acc => scanStringRest rest ('\r' :: acc)
  | 92 :: 98 :: rest, acc => scanStringRest rest (Char.ofNat 8 :: acc)
  | 92 :: 102 :: rest, acc => scanStringRest rest (Char.ofNat 12 :: acc)
  | 92 :: _, _ => .error "unsupported escape sequence"
  | b :: rest, acc =>
    if b < 32 then .error "control character in string"
    else scanStringRest rest (Char.ofNat b :: acc)

/-- Consume a run of ASCII digits, accumulating their value. -/
def scanDigits : List Nat → Nat → Nat × List Nat
  | b :: rest, acc =>
    if isDigitByte b then scanDigits rest (acc * 10 + (b - 48)) else (acc, b :: rest)
  | [], acc => (acc, [])

/-- Parse a JSON number (integers only; serde_json also accepts fractional and
exponent forms, which no decoded type in this crate uses). -/
def scanNumber (input : List Nat) : Except String (Json × List Nat) :=
  let signSplit : Bool × List Nat :=
    match input with
    | 45 :: rest => (true, rest)
    | _ => (false, input)
  match signSplit.2 with
  | b :: _ =>
    if isDigitByte b then
      let scanned := scanDigits signSplit.2 0
      match scanned.2 with
      | 46 :: _ => .error "fractional numbers not modelled"
      | 101 :: _ => .error "exponent numbers not modelled"
      | 69 :: _ => .error "exponent numbers not modelled"
      | rest => .ok (.num (if signSplit.1 then -(scanned.1 : Int) else (scanned.1 : Int)), rest)
    else .error "invalid number"
  | [] => .error "invalid number"

mutual

/-- Parse one JSON value; `fuel` bounds recursion depth (serde_json likewise
enforces a recursion limit). -/
def parseValue : Nat → List Nat → Except String (Json × List Nat)
  | 0, _ => .error "recursion limit exceeded"
  | fuel + 1, input =>
    match input.dropWhile isJsonWs with
    | [] => .error "unexpected end of input"
    | 110 :: 117 :: 108 :: 108 :: rest => .ok (.null, rest)
    | 116 :: 114 :: 117 :: 101 :: rest => .ok (.bool true, rest)
    | 102 :: 97 :: 108 :: 115 :: 101 :: rest => .ok (.bool false, rest)
    | 34 :: rest =>
      match scanStringRest rest [] with
      | .ok (s, rest2) => .ok (.str s, rest2)
      | .error e => .error e
    | 91 :: rest =>
      match rest.dropWhile isJsonWs with
      | 93 :: rest2 => .ok (.arr [], rest2)
      | _ => parseElements fuel rest []
    | 123 :: rest =>
      match rest.dropWhile isJsonWs with
      | 125 :: rest2 => .ok (.obj [], rest2)
      | _ => parseMembers fuel rest []
    | other => scanNumber other

/-- Parse the elements of a non-empty JSON array (after the opening bracket). -/
def parseElements : Nat → List Nat → List Json → Except String (Json × List Nat)
  | 0, _, _ => .error "recursion limit exceeded"
  | fuel + 1, input, acc =>
    match parseValue fuel input with
    | .error e => .error e
    | .ok (v, rest) =>
      match rest.dropWhile isJsonWs with
      | 44 :: rest2 => parseElements fuel rest2 (v :: acc)
      | 93 :: rest2 => .ok (.arr (v :: acc).reverse, rest2)
      | _ => .error "expected comma or closing bracket in array"

/-- Parse the members of a non-empty JSON object (after the opening brace).
Duplicate keys are kept (serde_json's derive would reject them; no claim
depends on duplicate-key inputs). -/
def parseMembers : Nat → List Nat → List (String × Json) → Except String (Json × List Nat)
  | 0, _, _ => .error "recursion limit exceeded"
  | fuel + 1, input, acc =>
    match input.dropWhile isJsonWs with
    | 34 :: rest =>
      match scanStringRest rest [] with
      | .error e => .error e
      | .ok (key, rest2) =>
        match rest2.dropWhile isJsonWs with
        | 58 :: rest3 =>
          match parseValue fuel rest3 with
          | .error e => .error e
          | .ok (v, rest4) =>
            match rest4.dropWhile isJsonWs with
            | 44 :: rest5 => parseMembers fuel rest5 ((key, v) :: acc)
            | 125 :: rest5 => .ok (.obj ((key, v) :: acc).reverse, rest5)
            | _ => .error "expected comma or closing brace in object"
        | _ => .error "expected colon after object key"
    | _ => .error "expected string key in object"

end

/-- Parse a whole body as one JSON document (models serde_json reading a full
slice: leading/trailing whitespace allowed, nothing else may follow). -/
def from_slice (body : List Nat) : Except String Json :=
  match parseValue (body.length + 1) body with
  | .error e => .error e
  | .ok (v, rest) =>
    if (rest.dropWhile isJsonWs).isEmpty then .ok v
    else .error "trailing characters"

/-- UTF-8 encoding of one character (standard encoding; used to turn string
literals into the byte sequences bodies are made of). -/
def utf8Bytes (c : Char) : List Nat :=
  let n := c.toNat
  if n < 128 then [n]
  else if n < 2048 then [192 + n / 64, 128 + n % 64]
  else if n < 65536 then [224 + n / 4096, 128 + (n / 64) % 64, 128 + n % 64]
  else [240 + n / 262144, 128 + (n / 4096) % 64, 128 + (n / 64) % 64, 128 + n % 64]

/-- The UTF-8 bytes of a string. -/
def strBytes (s : String) : List Nat := s.data.flatMap utf8Bytes

/-! ## Request and response types (src/types.rs) -/

/-- Image format for screenshots (`ImageFormat`, serde rename_all lowercase). -/
inductive ImageFormat where
  | Png
  | Jpeg
  | Webp
deriving DecidableEq

/-- When to consider the page loaded (`WaitUntil`, serde rename_all snake_case). -/
inductive WaitUntil where
  | Load
  | DomContentLoaded
  | NetworkIdle
deriving DecidableEq

/-- An `f32` value carried opaquely: the client never computes with
`device_scale_factor`, it only stores and serializes it, so it is modelled by
its 32-bit pattern. -/
structure F32 where
  bits : Nat
deriving DecidableEq

/-- Request to capture a screenshot (`ScreenshotRequest`). `u8`/`u32` fields
are modelled as `Nat`; the client performs no arithmetic or range checks on
them (values are passed through to the server). -/
structure ScreenshotRequest where
  url : String
  format : Option ImageFormat
  quality : Option Nat
  width : Option Nat
  height : Option Nat
  full_page : Option Bool
  wait_until : Option WaitUntil
  wait_for_selector : Option String
  wait_for_timeout : Option Nat
  device_scale_factor : Option F32
  store : Option Bool
  block_ads : Option Bool
deriving DecidableEq

/-- Builder for `ScreenshotRequest` (`ScreenshotRequestBuilder`), with every
field defaulted to `none` as in the Rust `Default` derive. -/
structure ScreenshotRequestBuilder where
  url : Option String := none
  format : Option ImageFormat := none
  quality : Option Nat := none
  width : Option Nat := none
  height : Option Nat := none
  full_page : Option Bool := none
  wait_until : Option WaitUntil := none
  wait_for_selector : Option String := none
  wait_for_timeout : Option Nat := none
  device_scale_factor : Option F32 := none
  store : Option Bool := none
  block_ads : Option Bool := none
deriving DecidableEq

/-- `ScreenshotRequest::builder()`: starts from the default (all-unset) builder. -/
def ScreenshotRequest.builder : ScreenshotRequestBuilder := {}

/-- Setter `url` (named `setUrl` because the field accessor takes the name). -/
def ScreenshotRequestBuilder.setUrl (self : ScreenshotRequestBuilder) (url : String) :
    ScreenshotRequestBuilder :=
  { self with url := some url }

/-- Setter `format`. -/
def ScreenshotRequestBuilder.setFormat (self : ScreenshotRequestBuilder) (format : ImageFormat) :
    ScreenshotRequestBuilder :=
  { self with format := some format }

/-- Setter `quality`. -/
def ScreenshotRequestBuilder.setQuality (self : ScreenshotRequestBuilder) (quality : Nat) :
    ScreenshotRequestBuilder :=
  { self with quality := some quality }

/-- Setter `width`. -/
def ScreenshotRequestBuilder.setWidth (self : ScreenshotRequestBuilder) (width : Nat) :
    ScreenshotRequestBuilder :=
  { self with width := some width }

/-- Setter `height`. -/
def ScreenshotRequestBuilder.setHeight (self : ScreenshotRequestBuilder) (height : Nat) :
    ScreenshotRequestBuilder :=
  { self with height := some height }

/-- Setter `full_page`. -/
def ScreenshotRequestBuilder.setFullPage (self : ScreenshotRequestBuilder) (full_page : Bool) :
    ScreenshotRequestBuilder :=
  { self with full_page := some full_page }

/-- Setter `wait_until`. -/
def ScreenshotRequestBuilder.setWaitUntil (self : ScreenshotRequestBuilder) (wait_until : WaitUntil) :
    ScreenshotRequestBuilder :=
  { self with wait_until := some wait_until }

/-- Setter `wait_for_selector`. -/
def ScreenshotRequestBuilder.setWaitForSelector (self : ScreenshotRequestBuilder) (selector : String) :
    ScreenshotRequestBuilder :=
  { self with wait_for_selector := some selector }

/-- Setter `wait_for_timeout`. -/
def ScreenshotRequestBuilder.setWaitForTimeout (self : ScreenshotRequestBuilder) (timeout : Nat) :
    ScreenshotRequestBuilder :=
  { self with wait_for_timeout := some timeout }

/-- Setter `device_scale_factor`. -/
def ScreenshotRequestBuilder.setDeviceScaleFactor (self : ScreenshotRequestBuilder) (factor : F32) :
    ScreenshotRequestBuilder :=
  { self with device_scale_factor := some factor }

/-- Setter `store`. -/
def ScreenshotRequestBuilder.setStore (self : ScreenshotRequestBuilder) (store : Bool) :
    ScreenshotRequestBuilder :=
  { self with store := some store }

/-- Setter `block_ads`. -/
def ScreenshotRequestBuilder.setBlockAds (self : ScreenshotRequestBuilder) (block_ads : Bool) :
    ScreenshotRequestBuilder :=
  { self with block_ads := some block_ads }

/-! ## Error type (src/error.rs) -/

/-- The SDK error type (`Error`). `Request` carries the transport failure's
description (the wrapped `reqwest::Error` is opaque to this crate). -/
inductive Error where
  | MissingField (name : String)
  | Request (cause : String)
  | Api (status : Nat) (message : String)
  | Parse (description : String)
  | Config (description : String)
deriving DecidableEq

/-- `ScreenshotRequestBuilder::build`: the sole validation is that `url` was
set; every other field is passed through unchecked. -/
def ScreenshotRequestBuilder.build (self : ScreenshotRequestBuilder) :
    Except Error ScreenshotRequest :=
  match self.url with
  | none => .error (.MissingField "url")
  | some url =>
    .ok ⟨url, self.format, self.quality, self.width, self.height, self.full_page,
      self.wait_until, self.wait_for_selector, self.wait_for_timeout,
      self.device_scale_factor, self.store, self.block_ads⟩

/-- Response when storing a screenshot (`StoredScreenshot`). `expires_at` is a
chrono `DateTime<Utc>`; chrono is external, so the timestamp is modelled by
the JSON string it was decoded from. `u32`/`u64` fields are `Nat` with range
checks in the decoder. -/
structure StoredScreenshot where
  url : String
  expires_at : String
  width : Nat
  height : Nat
  size_bytes : Nat
deriving DecidableEq

/-- Result of a screenshot request (`ScreenshotResponse`). -/
inductive ScreenshotResponse where
  | Bytes (data : List Nat)
  | Stored (info : StoredScreenshot)
deriving DecidableEq

/-- `ScreenshotResponse::bytes`: the image bytes if this is a bytes response
(the Rust borrow `&[u8]` and the owned data coincide in the embedding). -/
def ScreenshotResponse.bytes : ScreenshotResponse → Option (List Nat)
  | .Bytes data => some data
  | .Stored _ => none

/-- `ScreenshotResponse::stored`: the stored info if this is a stored response. -/
def ScreenshotResponse.stored : ScreenshotResponse → Option StoredScreenshot
  | .Bytes _ => none
  | .Stored info => some info

/-- `ScreenshotResponse::into_bytes`. -/
def ScreenshotResponse.into_bytes : ScreenshotResponse → Option (List Nat)
  | .Bytes data => some data
  | .Stored _ => none

/-- `ScreenshotResponse::into_stored`. -/
def ScreenshotResponse.into_stored : ScreenshotResponse → Option StoredScreenshot
  | .Bytes _ => none
  | .Stored info => some info

/-- API usage statistics (`Usage`); timestamps modelled as for
`StoredScreenshot.expires_at`. -/
structure Usage where
  screenshots : Nat
  bytes : Nat
  period_start : String
  period_end : String
deriving DecidableEq

/-- API error response body (`ApiError`). -/
structure ApiError where
  error : String
deriving DecidableEq

deriving instance DecidableEq for Except

/-! ## serde decoders for the response bodies -/

/-- Look up a field of a JSON object (first occurrence). -/
def Json.getField (j : Json) (name : String) : Option Json :=
  match j with
  | .obj fields => fields.lookup name
  | _ => none

/-- Require a field to be present, as serde's derive does. -/
def reqField (j : Json) (name : String) : Except String Json :=
  match j.getField name with
  | some v => .ok v
  | none => .error ("missing field " ++ name)

/-- Decode a JSON string. -/
def decodeStringJson : Json → Except String String
  | .str s => .ok s
  | _ => .error "invalid type: expected a string"

/-- Decode a `u32` (non-negative integer below 2^32, as serde enforces). -/
def decodeU32 : Json → Except String Nat
  | .num n => if 0 ≤ n ∧ n < 4294967296 then .ok n.toNat else .error "integer out of range for u32"
  | _ => .error "invalid type: expected an integer"

/-- Decode a `u64` (non-negative integer below 2^64, as serde enforces). -/
def decodeU64 : Json → Except String Nat
  | .num n =>
    if 0 ≤ n ∧ n < 18446744073709551616 then .ok n.toNat
    else .error "integer out of range for u64"
  | _ => .error "invalid type: expected an integer"

/-- Decode an `ApiError` from a parsed JSON document (field `error`; unknown
fields ignored, as serde's derive defaults to). -/
def decodeApiErrorJson (j : Json) : Except String ApiError := do
  let message ← decodeStringJson (← reqField j "error")
  pure ⟨message⟩

/-- `response.json::<ApiError>()` on a fully read body. -/
def decodeApiError (body : List Nat) : Except String ApiError := do
  decodeApiErrorJson (← from_slice body)

/-- Decode a `StoredScreenshot` from a parsed JSON document. The `expires_at`
value must be a JSON string (chrono's RFC 3339 validation of its content is
external and not modelled). -/
def decodeStoredJson (j : Json) : Except String StoredScreenshot := do
  let url ← decodeStringJson (← reqField j "url")
  let expires_at ← decodeStringJson (← reqField j "expires_at")
  let width ← decodeU32 (← reqField j "width")
  let height ← decodeU32 (← reqField j "height")
  let size_bytes ← decodeU64 (← reqField j "size_bytes")
  pure ⟨url, expires_at, width, height, size_bytes⟩

/-- `response.json::<StoredScreenshot>()` on a fully read body. -/
def decodeStored (body : List Nat) : Except String StoredScreenshot := do
  decodeStoredJson (← from_slice body)

/-- Decode a `Usage` from a parsed JSON document. -/
def decodeUsageJson (j : Json) : Except String Usage := do
  let screenshots ← decodeU64 (← reqField j "screenshots")
  let bytes ← decodeU64 (← reqField j "bytes")
  let period_start ← decodeStringJson (← reqField j "period_start")
  let period_end ← decodeStringJson (← reqField j "period_end")
  pure ⟨screenshots, bytes, period_start, period_end⟩

/-- `response.json::<Usage>()` on a fully read body. -/
def decodeUsage (body : List Nat) : Except String Usage := do
  decodeUsageJson (← from_slice body)

/-! ## Request serialization (serde Serialize derive on `ScreenshotRequest`)

Every optional field carries `skip_serializing_if = "Option::is_none"`, so
the wire object lists `url` followed by exactly the set optional fields, in
declaration order. -/

/-- A serialized JSON value position in the request payload. `null` exists in
the wire model so that its absence from any payload is statable. -/
inductive WireValue where
  | str (s : String)
  | int (n : Nat)
  | bool (b : Bool)
  | float (f : F32)
  | null
deriving DecidableEq

/-- serde name of an `ImageFormat` value (rename_all = lowercase). -/
def ImageFormat.wireName : ImageFormat → String
  | .Png => "png"
  | .Jpeg => "jpeg"
  | .Webp => "webp"

/-- serde name of a `WaitUntil` value (rename_all = snake_case). -/
def WaitUntil.wireName : WaitUntil → String
  | .Load => "load"
  | .DomContentLoaded => "dom_content_loaded"
  | .NetworkIdle => "network_idle"

/-- One optional struct field under `skip_serializing_if = "Option::is_none"`:
absent when unset, a single key/value when set. -/
def optField {α : Type} (name : String) (v : Option α) (enc : α → WireValue) :
    List (String × WireValue) :=
  match v with
  | none => []
  | some x => [(name, enc x)]

/-- The serialized request payload as an ordered list of object members. -/
def ScreenshotRequest.serialize (r : ScreenshotRequest) : List (String × WireValue) :=
  [("url", .str r.url)]
  ++ optField "format" r.format (fun f => .str f.wireName)
  ++ optField "quality" r.quality .int
  ++ optField "width" r.width .int
  ++ optField "height" r.height .int
  ++ optField "full_page" r.full_page .bool
  ++ optField "wait_until" r.wait_until (fun w => .str w.wireName)
  ++ optField "wait_for_selector" r.wait_for_selector .str
  ++ optField "wait_for_timeout" r.wait_for_timeout .int
  ++ optField "device_scale_factor" r.device_scale_factor .float
  ++ optField "store" r.store .bool
  ++ optField "block_ads" r.block_ads .bool

/-! ## HTTP layer model (src/client.rs and the http crate pieces it uses) -/

/-- The outcome of one HTTP exchange as the client observes it: either the
transport failed, or a response arrived with a status and a fully read body. -/
inductive Outcome where
  | transport (cause : String)
  | response (status : Nat) (body : List Nat)
deriving DecidableEq

/-- `StatusCode::is_success`: status in 200..=299. -/
def is_success (status : Nat) : Bool := 200 ≤ status && status < 300

/-- `StatusCode::canonical_reason` from the http crate: the standard reason
phrase of a status code, when it has one. -/
def canonical_reason (status : Nat) : Option String :=
  match status with
  | 100 => some "Continue"
  | 101 => some "Switching Protocols"
  | 102 => some "Processing"
  | 200 => some "OK"
  | 201 => some "Created"
  | 202 => some "Accepted"
  | 203 => some "Non Authoritative Information"
  | 204 => some "No Content"
  | 205 => some "Reset Content"
  | 206 => some "Partial Content"
  | 207 => some "Multi-Status"
  | 208 => some "Already Reported"
  | 226 => some "IM Used"
  | 300 => some "Multiple Choices"
  | 301 => some "Moved Permanently"
  | 302 => some "Found"
  | 303 => some "See Other"
  | 304 => some "Not Modified"
  | 305 => some "Use Proxy"
  | 307 => some "Temporary Redirect"
  | 308 => some "Permanent Redirect"
  | 400 => some "Bad Request"
  | 401 => some "Unauthorized"
  | 402 => some "Payment Required"
  | 403 => some "Forbidden"
  | 404 => some "Not Found"
  | 405 => some "Method Not Allowed"
  | 406 => some "Not Acceptable"
  | 407 => some "Proxy Authentication Required"
  | 408 => some "Request Timeout"
  | 409 => some "Conflict"
  | 410 => some "Gone"
  | 411 => some "Length Required"
  | 412 => some "Precondition Failed"
  | 413 => some "Payload Too Large"
  | 414 => some "URI Too Long"
  | 415 => some "Unsupported Media Type"
  | 416 => some "Range Not Satisfiable"
  | 417 => some "Expectation Failed"
  | 418 => some "I\x27m a teapot"
  | 421 => some "Misdirected Request"
  | 422 => some "Unprocessable Entity"
  | 423 => some "Locked"
  | 424 => some "Failed Dependency"
  | 426 => some "Upgrade Required"
  | 428 => some "Precondition Required"
  | 429 => some "Too Many Requests"
  | 431 => some "Request Header Fields Too Large"
  | 451 => some "Unavailable For Legal Reasons"
  | 500 => some "Internal Server Error"
  | 501 => some "Not Implemented"
  | 502 => some "Bad Gateway"
  | 503 => some "Service Unavailable"
  | 504 => some "Gateway Timeout"
  | 505 => some "HTTP Version Not Supported"
  | 506 => some "Variant Also Negotiates"
  | 507 => some "Insufficient Storage"
  | 508 => some "Loop Detected"
  | 510 => some "Not Extended"
  | 511 => some "Network Authentication Required"
  | _ => none

/-- `HeaderValue::from_str` validity from the http crate: every byte is
visible (32..=255 except 127) or horizontal tab. -/
def is_valid_header_value (s : String) : Bool :=
  (strBytes s).all (fun b => b == 9 || (32 ≤ b && b != 127))

/-- `DEFAULT_BASE_URL` in src/client.rs. -/
def DEFAULT_BASE_URL : String := "https://api.pxshot.com"

/-- `str::trim_end_matches('/')`: drop every trailing slash. -/
def trimTrailingSlashes (s : String) : String :=
  String.mk ((s.data.reverse.dropWhile (fun c => c == '/')).reverse)

/-- The async Pxshot client value: the retained API key (held inside the
reqwest `Client` as the default Authorization header) and the normalized base
URL. -/
structure Pxshot where
  api_key : String
  base_url : String
deriving DecidableEq

/-- Outcome of `Pxshot::with_base_url`, which in Rust returns `Self` and can
only fail by panicking (its two `.expect` calls). -/
inductive ConstructOutcome where
  | ok (client : Pxshot)
  | panicked (msg : String)
deriving DecidableEq

/-- `Pxshot::with_base_url`: renders `Bearer <key>`, panics with
"invalid API key" when that is not a valid header value, and stores the base
URL with trailing slashes stripped. (`Client::builder().build()` with only
default headers set cannot fail; its `.expect` never fires and is not
modelled as a panic source.) -/
def Pxshot.with_base_url (api_key : String) (base_url : String) : ConstructOutcome :=
  let auth_value := "Bearer " ++ api_key
  if is_valid_header_value auth_value then
    .ok ⟨api_key, trimTrailingSlashes base_url⟩
  else
    .panicked "invalid API key"

/-- `Pxshot::new`: delegates to `with_base_url` with the default base URL. -/
def Pxshot.new (api_key : String) : ConstructOutcome :=
  Pxshot.with_base_url api_key DEFAULT_BASE_URL

/-- The URL the capture operation posts to. -/
def Pxshot.screenshot_url (c : Pxshot) : String := c.base_url ++ "/v1/screenshot"

/-- The URL the usage operation gets. -/
def Pxshot.usage_url (c : Pxshot) : String := c.base_url ++ "/v1/usage"

/-- `Pxshot::parse_error`: decode the body as `ApiError`; on failure swallow
the decode error and fall back to the status's canonical reason phrase or
"Unknown error". -/
def Pxshot.parse_error (status : Nat) (body : List Nat) : Error :=
  match decodeApiError body with
  | .ok api_error => .Api status api_error.error
  | .error _ => .Api status ((canonical_reason status).getD "Unknown error")

/-- `Pxshot::screenshot`: read `store` (absent = false) before the exchange,
then dispatch: non-success status to `parse_error`, success with `store` to
the Stored decode, success without to the raw bytes. The client value is a
parameter for faithfulness (it determines the URL posted to); the exchange at
that URL is the `out` argument. -/
def Pxshot.screenshot (_c : Pxshot) (request : ScreenshotRequest) (out : Outcome) :
    Except Error ScreenshotResponse :=
  let store := request.store.getD false
  match out with
  | .transport cause => .error (.Request cause)
  | .response status body =>
    if !is_success status then
      .error (Pxshot.parse_error status body)
    else if store then
      match decodeStored body with
      | .ok stored => .ok (.Stored stored)
      | .error e => .error (.Parse ("failed to parse stored screenshot response: " ++ e))
    else
      .ok (.Bytes body)

/-- `Pxshot::usage`: non-success status to `parse_error`, success to the
`Usage` decode with decode failures wrapped in `Error::Parse`. -/
def Pxshot.usage (_c : Pxshot) (out : Outcome) : Except Error Usage :=
  match out with
  | .transport cause => .error (.Request cause)
  | .response status body =>
    if !is_success status then
      .error (Pxshot.parse_error status body)
    else
      match decodeUsage body with
      | .ok u => .ok u
      | .error e => .error (.Parse ("failed to parse usage response: " ++ e))

/-! ## Blocking client (src/client.rs, `mod blocking`): an independent
implementation over the same request, response and error types. -/

namespace blocking

/-- The blocking Pxshot client value (`blocking::Pxshot`). -/
structure Pxshot where
  api_key : String
  base_url : String
deriving DecidableEq

/-- Outcome of `blocking::Pxshot::with_base_url` (returns `Self`, may panic). -/
inductive ConstructOutcome where
  | ok (client : Pxshot)
  | panicked (msg : String)
deriving DecidableEq

/-- `blocking::Pxshot::with_base_url`, same construction steps as the async
client's. -/
def Pxshot.with_base_url (api_key : String) (base_url : String) : ConstructOutcome :=
  let auth_value := "Bearer " ++ api_key
  if is_valid_header_value auth_value then
    .ok ⟨api_key, trimTrailingSlashes base_url⟩
  else
    .panicked "invalid API key"

/-- `blocking::Pxshot::new`. -/
def Pxshot.new (api_key : String) : ConstructOutcome :=
  Pxshot.with_base_url api_key DEFAULT_BASE_URL

/-- `blocking::Pxshot::parse_error`. -/
def Pxshot.parse_error (status : Nat) (body : List Nat) : Error :=
  match decodeApiError body with
  | .ok api_error => .Api status api_error.error
  | .error _ => .Api status ((canonical_reason status).getD "Unknown error")

/-- `blocking::Pxshot::screenshot`. -/
def Pxshot.screenshot (_c : Pxshot) (request : ScreenshotRequest) (out : Outcome) :
    Except Error ScreenshotResponse :=
  let store := request.store.getD false
  match out with
  | .transport cause => .error (.Request cause)
  | .response status body =>
    if !is_success status then
      .error (Pxshot.parse_error status body)
    else if store then
      match decodeStored body with
      | .ok stored => .ok (.Stored stored)
      | .error e => .error (.Parse ("failed to parse stored screenshot response: " ++ e))
    else
      .ok (.Bytes body)

/-- `blocking::Pxshot::usage`. -/
def Pxshot.usage (_c : Pxshot) (out : Outcome) : Except Error Usage :=
  match out with
  | .transport cause => .error (.Request cause)
  | .response status body =>
    if !is_success status then
      .error (Pxshot.parse_error status body)
    else
      match decodeUsage body with
      | .ok u => .ok u
      | .error e => .error (.Parse ("failed to parse usage response: " ++ e))

end blocking

/-! ## Shared concrete values used by witnesses -/

/-- A client for concrete instances. -/
def defaultClient : Pxshot := ⟨"px_key", "https://api.pxshot.com"⟩

/-- A request with only `url` set (store absent). -/
def bytesRequest : ScreenshotRequest :=
  ⟨"https://example.com", none, none, none, none, none, none, none, none, none, none, none⟩

/-- A request with `url` set and `store` set to true. -/
def storedRequest : ScreenshotRequest :=
  { bytesRequest with store := some true }

/-- A well-formed stored-screenshot response body. -/
def storedBody : List Nat :=
  strBytes "\x7b\"url\":\"https://cdn.pxshot.com/s.png\",\"expires_at\":\"2025-01-01T00:00:00Z\",\"width\":800,\"height\":600,\"size_bytes\":12345\x7d"

/-! ## Claims -/

/-- C2: `build()` fails with `MissingField("url")` exactly when `url` was never
set, regardless of the other fields; when `url` is set, `build()` succeeds and
the request carries exactly the accumulated field values, with no other
validation. -/
theorem build_validates_only_url (b : ScreenshotRequestBuilder) :
    (b.build = .error (.MissingField "url") ↔ b.url = none) ∧
    (∀ u, b.url = some u →
      b.build = .ok ⟨u, b.format, b.quality, b.width, b.height, b.full_page, b.wait_until,
        b.wait_for_selector, b.wait_for_timeout, b.device_scale_factor, b.store,
        b.block_ads⟩) := by
  constructor
  · cases h : b.url <;> simp [ScreenshotRequestBuilder.build, h]
  · intro u h
    simp [ScreenshotRequestBuilder.build, h]

/-- Witness for C2 at concrete builders: an all-default builder with `url` set
builds to the request with that url and everything else unset, and the empty
builder fails with `MissingField("url")`. -/
theorem build_validates_only_url_witness :
    (ScreenshotRequest.builder.setUrl "https://example.com").build =
      .ok ⟨"https://example.com", none, none, none, none, none, none, none, none, none,
        none, none⟩ ∧
    ScreenshotRequest.builder.build = .error (.MissingField "url") :=
  ⟨(build_validates_only_url (ScreenshotRequest.builder.setUrl "https://example.com")).2
      "https://example.com" rfl,
    (build_validates_only_url ScreenshotRequest.builder).1.mpr rfl⟩

/-- C6: the four `ScreenshotResponse` accessors are total pure projections and
mutually exclusive: on a Bytes value, `bytes`/`into_bytes` return the data and
`stored`/`into_stored` return none; symmetrically on a Stored value. -/
theorem response_accessors_exclusive (data : List Nat) (info : StoredScreenshot) :
    (ScreenshotResponse.Bytes data).bytes = some data ∧
    (ScreenshotResponse.Bytes data).stored = none ∧
    (ScreenshotResponse.Bytes data).into_bytes = some data ∧
    (ScreenshotResponse.Bytes data).into_stored = none ∧
    (ScreenshotResponse.Stored info).bytes = none ∧
    (ScreenshotResponse.Stored info).stored = some info ∧
    (ScreenshotResponse.Stored info).into_bytes = none ∧
    (ScreenshotResponse.Stored info).into_stored = some info :=
  ⟨rfl, rfl, rfl, rfl, rfl, rfl, rfl, rfl⟩

/-- C7 counterexample: a builder whose `url` was set to the empty string builds
successfully, yielding a request whose `url` field is `""` — `build()` does not
enforce non-emptiness. -/
theorem build_accepts_empty_url :
    (ScreenshotRequest.builder.setUrl "").build =
      .ok ⟨"", none, none, none, none, none, none, none, none, none, none, none⟩ := rfl

/-- C7 as amended: `build()` on a builder whose `url` was set succeeds for every
string, including the empty one, and the built request's `url` is exactly the
string that was set; emptiness is not validated. -/
theorem build_url_passed_through (b : ScreenshotRequestBuilder) (s : String) :
    (b.setUrl s).build =
      .ok ⟨s, b.format, b.quality, b.width, b.height, b.full_page, b.wait_until,
        b.wait_for_selector, b.wait_for_timeout, b.device_scale_factor, b.store,
        b.block_ads⟩ := rfl

/-- C1: on every 2xx exchange, `screenshot` returns the Bytes variant holding
the entire body when the request's `store` is unset or false, and the Stored
variant decoded from the JSON body when `store` is true; the case analysis is
on the request's flag alone, for every body. -/
theorem screenshot_dispatch_on_store (c : Pxshot) (request : ScreenshotRequest)
    (status : Nat) (body : List Nat) (hs : is_success status = true) :
    ((request.store = none ∨ request.store = some false) →
      c.screenshot request (.response status body) = .ok (.Bytes body)) ∧
    (request.store = some true →
      c.screenshot request (.response status body) =
        match decodeStored body with
        | .ok stored => .ok (.Stored stored)
        | .error e => .error (.Parse ("failed to parse stored screenshot response: " ++ e))) := by
  constructor
  · rintro (h | h) <;> simp [Pxshot.screenshot, h, hs]
  · intro h
    simp only [Pxshot.screenshot, h, Option.getD_some, hs, Bool.not_true, Bool.false_eq_true,
      if_false, if_true]

/-- Witness for C1: a store-less request on a 2xx exchange yields the raw body
as Bytes, and a store=true request on a 2xx exchange with a well-formed JSON
descriptor yields the decoded Stored value. -/
theorem screenshot_dispatch_on_store_witness :
    defaultClient.screenshot bytesRequest (.response 200 [137, 80, 78, 71]) =
      .ok (.Bytes [137, 80, 78, 71]) ∧
    defaultClient.screenshot storedRequest (.response 200 storedBody) =
      .ok (.Stored ⟨"https://cdn.pxshot.com/s.png", "2025-01-01T00:00:00Z", 800, 600, 12345⟩) := by
  constructor
  · exact (screenshot_dispatch_on_store defaultClient bytesRequest 200 [137, 80, 78, 71]
      (by decide)).1 (Or.inl rfl)
  · exact ((screenshot_dispatch_on_store defaultClient storedRequest 200 storedBody
      (by decide)).2 rfl).trans (by set_option maxRecDepth 10000 in decide)

/-- C4: on every non-2xx response, both `screenshot` and `usage` fail with
`Error::Api` carrying the response's status; the message is the server's
`error` string when the body decodes as an ApiError, and otherwise the status's
canonical reason phrase, falling back to "Unknown error" — the decode failure
itself is never propagated. -/
theorem non_success_api_failure (c : Pxshot) (request : ScreenshotRequest)
    (status : Nat) (body : List Nat) (hs : is_success status = false) :
    c.screenshot request (.response status body) =
      .error (.Api status
        (match decodeApiError body with
         | .ok api_error => api_error.error
         | .error _ => (canonical_reason status).getD "Unknown error")) ∧
    c.usage (.response status body) =
      .error (.Api status
        (match decodeApiError body with
         | .ok api_error => api_error.error
         | .error _ => (canonical_reason status).getD "Unknown error")) := by
  constructor
  · simp only [Pxshot.screenshot, hs, Bool.not_false, if_true, Pxshot.parse_error]
    cases decodeApiError body <;> rfl
  · simp only [Pxshot.usage, hs, Bool.not_false, if_true, Pxshot.parse_error]
    cases decodeApiError body <;> rfl

/-- Witness for C4: a 500 with an unparseable body maps to the canonical
phrase, and a 429 with a well-formed error body maps to the server's message,
for capture and usage respectively. -/
theorem non_success_api_failure_witness :
    defaultClient.screenshot bytesRequest (.response 500 (strBytes "oops")) =
      .error (.Api 500 "Internal Server Error") ∧
    defaultClient.usage (.response 429 (strBytes "\x7b\"error\":\"quota exceeded\"\x7d")) =
      .error (.Api 429 "quota exceeded") := by
  constructor
  · exact ((non_success_api_failure defaultClient bytesRequest 500 (strBytes "oops")
      (by decide)).1).trans (by decide)
  · exact ((non_success_api_failure defaultClient bytesRequest 429
      (strBytes "\x7b\"error\":\"quota exceeded\"\x7d") (by decide)).2).trans (by decide)

/-- C5: on every 2xx exchange for a request with `store` true whose body does
not decode as a Stored descriptor, `screenshot` fails with `Error::Parse`
whose description extends the underlying decode cause — no panic, no default
value. -/
theorem store_true_decode_failure (c : Pxshot) (request : ScreenshotRequest)
    (status : Nat) (body : List Nat) (e : String) (hs : is_success status = true)
    (hstore : request.store = some true) (hdec : decodeStored body = .error e) :
    c.screenshot request (.response status body) =
      .error (.Parse ("failed to parse stored screenshot response: " ++ e)) := by
  simp [Pxshot.screenshot, hs, hstore, hdec]

/-- Witness for C5: a 2xx response whose body is a lone opening brace fails the
Stored decode, and `screenshot` surfaces that cause inside `Error::Parse`. -/
theorem store_true_decode_failure_witness :
    defaultClient.screenshot storedRequest (.response 200 (strBytes "\x7b")) =
      .error (.Parse ("failed to parse stored screenshot response: " ++
        "expected string key in object")) :=
  store_true_decode_failure defaultClient storedRequest 200 (strBytes "\x7b")
    "expected string key in object" (by decide) rfl (by decide)

/-- The keys contributed by one optional field: its name exactly when set. -/
theorem optField_keys {α : Type} (name : String) (v : Option α) (enc : α → WireValue) :
    (optField name v enc).map Prod.fst = if v.isSome then [name] else [] := by
  cases v <;> rfl

/-- An optional field whose encoder never produces `null` contributes no
`null` value. -/
theorem optField_snd_ne_null {α : Type} (name : String) (v : Option α)
    (enc : α → WireValue) (henc : ∀ x, enc x ≠ .null) :
    ∀ p ∈ optField name v enc, p.2 ≠ .null := by
  cases v with
  | none =>
    intro p hp
    simp [optField] at hp
  | some x =>
    intro p hp
    simp only [optField, List.mem_singleton] at hp
    subst hp
    exact henc x

/-- C3: the serialized payload lists `url` followed by exactly the optional
fields that were set, in declaration order — a key appears iff its field is
set — no value is ever `null`, and a request with only `url` set serializes to
exactly the one-member object. -/
theorem serialize_key_iff_set (r : ScreenshotRequest) :
    (r.serialize.map Prod.fst =
      ["url"]
      ++ (if r.format.isSome then ["format"] else [])
      ++ (if r.quality.isSome then ["quality"] else [])
      ++ (if r.width.isSome then ["width"] else [])
      ++ (if r.height.isSome then ["height"] else [])
      ++ (if r.full_page.isSome then ["full_page"] else [])
      ++ (if r.wait_until.isSome then ["wait_until"] else [])
      ++ (if r.wait_for_selector.isSome then ["wait_for_selector"] else [])
      ++ (if r.wait_for_timeout.isSome then ["wait_for_timeout"] else [])
      ++ (if r.device_scale_factor.isSome then ["device_scale_factor"] else [])
      ++ (if r.store.isSome then ["store"] else [])
      ++ (if r.block_ads.isSome then ["block_ads"] else [])) ∧
    (∀ p ∈ r.serialize, p.2 ≠ .null) ∧
    (r.format = none → r.quality = none → r.width = none → r.height = none →
      r.full_page = none → r.wait_until = none → r.wait_for_selector = none →
      r.wait_for_timeout = none → r.device_scale_factor = none → r.store = none →
      r.block_ads = none → r.serialize = [("url", .str r.url)]) := by
  refine ⟨?_, ?_, ?_⟩
  · simp [ScreenshotRequest.serialize, optField_keys]
  · simp only [ScreenshotRequest.serialize, List.forall_mem_append]
    repeat' apply And.intro
    · intro p hp
      simp only [List.mem_singleton] at hp
      subst hp
      simp
    all_goals exact optField_snd_ne_null _ _ _ (fun x => by simp)
  · intro h1 h2 h3 h4 h5 h6 h7 h8 h9 h10 h11
    simp [ScreenshotRequest.serialize, h1, h2, h3, h4, h5, h6, h7, h8, h9, h10, h11, optField]

/-- Witness for C3: the request with only `url` set serializes to exactly the
single-member payload. -/
theorem serialize_key_iff_set_witness :
    bytesRequest.serialize = [("url", .str "https://example.com")] :=
  (serialize_key_iff_set bytesRequest).2.2 rfl rfl rfl rfl rfl rfl rfl rfl rfl rfl rfl

/-- C8 counterexample: constructing a client from an API key whose
`Bearer <key>` rendering is not a valid header value panics ("invalid API
key"); no typed `Config` failure is returned — construction cannot return an
error at all. -/
theorem construction_panics_on_invalid_key :
    Pxshot.new "px\nkey" = .panicked "invalid API key" := by decide

/-- C8 as amended: client construction is infallible in its signature; when the
`Bearer <key>` rendering is a valid header value it succeeds, and when it is
not it panics with "invalid API key" instead of surfacing a typed
`Error::Config` result (that error kind is never produced). -/
theorem construction_panics_not_config (api_key base_url : String) :
    (is_valid_header_value ("Bearer " ++ api_key) = true →
      Pxshot.with_base_url api_key base_url =
        .ok ⟨api_key, trimTrailingSlashes base_url⟩) ∧
    (is_valid_header_value ("Bearer " ++ api_key) = false →
      Pxshot.with_base_url api_key base_url = .panicked "invalid API key") := by
  constructor <;> intro h <;> simp [Pxshot.with_base_url, h]

/-- Witness for C8's amended statement: a plain key constructs a client, a key
with an embedded carriage return panics. -/
theorem construction_panics_not_config_witness :
    Pxshot.with_base_url "px_key" "https://api.pxshot.com/" =
      .ok ⟨"px_key", "https://api.pxshot.com"⟩ ∧
    Pxshot.with_base_url "a\rb" "https://api.pxshot.com" = .panicked "invalid API key" := by
  constructor
  · exact ((construction_panics_not_config "px_key" "https://api.pxshot.com/").1
      (by decide)).trans (by decide)
  · exact (construction_panics_not_config "a\rb" "https://api.pxshot.com").2 (by decide)

/-- C9: over every built request and every modelled exchange outcome, the
blocking client's screenshot and usage return exactly what the async client's
do, over the shared request, response and error types; and the two
constructors accept the same inputs and produce clients with the same fields. -/
theorem blocking_matches_async (api_key base_url : String)
    (request : ScreenshotRequest) (out out2 : Outcome) :
    blocking.Pxshot.screenshot ⟨api_key, base_url⟩ request out =
      Pxshot.screenshot ⟨api_key, base_url⟩ request out ∧
    blocking.Pxshot.usage ⟨api_key, base_url⟩ out2 =
      Pxshot.usage ⟨api_key, base_url⟩ out2 ∧
    (∀ client : blocking.Pxshot,
      blocking.Pxshot.with_base_url api_key base_url = .ok client →
      Pxshot.with_base_url api_key base_url = .ok ⟨client.api_key, client.base_url⟩) := by
  refine ⟨rfl, rfl, ?_⟩
  intro client h
  by_cases hv : is_valid_header_value ("Bearer " ++ api_key)
  · simp only [blocking.Pxshot.with_base_url, hv, if_true,
      blocking.ConstructOutcome.ok.injEq] at h
    simp [Pxshot.with_base_url, hv, ← h]
  · simp [blocking.Pxshot.with_base_url, hv] at h

/-- With `p c` true, dropping `p`-satisfying elements skips a leading
replicate of `c` entirely. -/
theorem dropWhile_replicate_append (p : Char → Bool) (c : Char) (hc : p c = true)
    (n : Nat) (l : List Char) :
    List.dropWhile p (List.replicate n c ++ l) = List.dropWhile p l := by
  induction n with
  | zero => rfl
  | succ m ih => simp [List.replicate_succ, List.dropWhile_cons, hc, ih]

/-- Appending trailing slashes does not change the trimmed base URL. -/
theorem trimTrailingSlashes_append_slashes (s : String) (n : Nat) :
    trimTrailingSlashes (s ++ String.mk (List.replicate n '/')) = trimTrailingSlashes s := by
  unfold trimTrailingSlashes
  rw [String.data_append]
  simp [List.reverse_append, dropWhile_replicate_append (fun c => c == '/') '/' rfl]

/-- C10: construction strips all trailing slashes from the base URL — the
client built from `b` with any number of trailing slashes appended equals the
one built from `b` — every constructed client issues requests to exactly the
trimmed base followed by /v1/screenshot and /v1/usage, and the no-argument
constructor equals construction with the fixed production base URL. -/
theorem base_url_trailing_slash_normalization (api_key base_url : String) (n : Nat)
    (client : Pxshot) :
    Pxshot.with_base_url api_key (base_url ++ String.mk (List.replicate n '/')) =
      Pxshot.with_base_url api_key base_url ∧
    (Pxshot.with_base_url api_key base_url = .ok client →
      client.screenshot_url = trimTrailingSlashes base_url ++ "/v1/screenshot" ∧
      client.usage_url = trimTrailingSlashes base_url ++ "/v1/usage") ∧
    Pxshot.new api_key = Pxshot.with_base_url api_key "https://api.pxshot.com" := by
  refine ⟨?_, ?_, rfl⟩
  · unfold Pxshot.with_base_url
    rw [trimTrailingSlashes_append_slashes]
  · intro h
    by_cases hv : is_valid_header_value ("Bearer " ++ api_key)
    · simp only [Pxshot.with_base_url, hv, if_true, ConstructOutcome.ok.injEq] at h
      rw [← h]
      exact ⟨rfl, rfl⟩
    · simp [Pxshot.with_base_url, hv] at h

/-- Witness for C10 at a concrete base URL: three trailing slashes are
stripped, and the constructed client's endpoints extend the trimmed base. -/
theorem base_url_trailing_slash_normalization_witness :
    Pxshot.with_base_url "px_key" ("http://localhost:9000" ++ String.mk (List.replicate 3 '/')) =
      Pxshot.with_base_url "px_key" "http://localhost:9000" ∧
    Pxshot.screenshot_url ⟨"px_key", "http://localhost:9000"⟩ =
      "http://localhost:9000/v1/screenshot" ∧
    Pxshot.usage_url ⟨"px_key", "http://localhost:9000"⟩ = "http://localhost:9000/v1/usage" := by
  have h := base_url_trailing_slash_normalization "px_key" "http://localhost:9000" 3
    ⟨"px_key", "http://localhost:9000"⟩
  have h2 := h.2.1 (by decide)
  exact ⟨h.1, h2.1.trans (by decide), h2.2.trans (by decide)⟩
